import Mathlib

/-!
Shallow embedding of the windrunner-game runtime core
(collision system, character state machine, animation/tween controller,
performance manager and object pool), with theorems checking the
natural-language specification against the code.

Numbers of the source (JavaScript numbers) are embedded as rationals,
so all arithmetic is exact.
-/

namespace WindRunner

/-! ## Geometry (src/types/game Rectangle, src/utils/collision.ts) -/

/-- A rectangle `{x, y, width, height}` as used throughout the game. -/
structure Rect where
  x : ℚ
  y : ℚ
  width : ℚ
  height : ℚ
deriving DecidableEq, Repr

/-- A registered world object (obstacle or collectible).  JavaScript object
identity is embedded as a numeric tag `oid`; the geometry is its rectangle. -/
structure Obj where
  oid : ℕ
  rect : Rect
deriving DecidableEq, Repr

/-- `checkCollision` from the collision utility file: the exact AABB
intersection test on two rectangles (four strict inequalities). -/
def checkCollision (rect1 rect2 : Rect) : Bool :=
  decide (rect1.x < rect2.x + rect2.width ∧
    rect1.x + rect1.width > rect2.x ∧
    rect1.y < rect2.y + rect2.height ∧
    rect1.y + rect1.height > rect2.y)

/-- `OptimizedBounds` of CollisionSystem.ts. -/
structure Bounds where
  minX : ℚ
  maxX : ℚ
  minY : ℚ
  maxY : ℚ
deriving DecidableEq, Repr

/-- `CollisionSystem.getBounds`: bounds of a rectangle (the pooling of the
bounds records is memory management only and has no observable effect). -/
def getBounds (rect : Rect) : Bounds :=
  ⟨rect.x, rect.x + rect.width, rect.y, rect.y + rect.height⟩

/-- `CollisionSystem.fastAABBCheck`. -/
def fastAABBCheck (bounds1 bounds2 : Bounds) : Bool :=
  decide (bounds1.minX < bounds2.maxX ∧
    bounds1.maxX > bounds2.minX ∧
    bounds1.minY < bounds2.maxY ∧
    bounds1.maxY > bounds2.minY)

/-- The constructor parameters of `CollisionSystem`. -/
structure CollisionSystem where
  canvasWidth : ℚ
  canvasHeight : ℚ
  cellSize : ℚ
deriving DecidableEq, Repr

/-- `this.gridWidth = Math.ceil(canvasWidth / cellSize)`. -/
def gridWidth (s : CollisionSystem) : ℤ := ⌈s.canvasWidth / s.cellSize⌉

/-- `this.gridHeight = Math.ceil(canvasHeight / cellSize)`. -/
def gridHeight (s : CollisionSystem) : ℤ := ⌈s.canvasHeight / s.cellSize⌉

/-- `Math.max(0, Math.floor(bounds.minX / cellSize))`. -/
def cellStartX (s : CollisionSystem) (b : Bounds) : ℤ := max 0 ⌊b.minX / s.cellSize⌋

/-- `Math.min(gridWidth - 1, Math.floor(bounds.maxX / cellSize))`. -/
def cellEndX (s : CollisionSystem) (b : Bounds) : ℤ :=
  min (gridWidth s - 1) ⌊b.maxX / s.cellSize⌋

/-- `Math.max(0, Math.floor(bounds.minY / cellSize))`. -/
def cellStartY (s : CollisionSystem) (b : Bounds) : ℤ := max 0 ⌊b.minY / s.cellSize⌋

/-- `Math.min(gridHeight - 1, Math.floor(bounds.maxY / cellSize))`. -/
def cellEndY (s : CollisionSystem) (b : Bounds) : ℤ :=
  min (gridHeight s - 1) ⌊b.maxY / s.cellSize⌋

/-- The integers from `a` to `b` inclusive (empty when `b < a`), the index
set of a `for (let i = a; i <= b; i++)` loop. -/
def intRange (a b : ℤ) : List ℤ :=
  (List.range (b + 1 - a).toNat).map (fun k : ℕ => a + (k : ℤ))

/-- The cells spanned by `bounds`, in the nested-loop order of
`addObjectToGrid` and `checkCharacterCollisions` (x outer, y inner). -/
def coveredCells (s : CollisionSystem) (b : Bounds) : List (ℤ × ℤ) :=
  (intRange (cellStartX s b) (cellEndX s b)).flatMap
    (fun i => (intRange (cellStartY s b) (cellEndY s b)).map (fun j => (i, j)))

/-- The spatial grid, as the per-cell registration lists. -/
abbrev Grid : Type := ℤ × ℤ → List Obj

/-- `clearGrid`: every cell's registration list is emptied. -/
def clearGrid : Grid := fun _ => []

/-- `addObjectToGrid`: push `o` onto the list of every cell its bounds span
(after clamping the cell range to the grid). -/
def addObjectToGrid (s : CollisionSystem) (g : Grid) (o : Obj) : Grid :=
  fun c => if c ∈ coveredCells s (getBounds o.rect) then g c ++ [o] else g c

/-- The grid after `clearGrid()` followed by `addObjectToGrid` on each
object of `objs` in order. -/
def buildGrid (s : CollisionSystem) (objs : List Obj) : Grid :=
  objs.foldl (addObjectToGrid s) clearGrid

/-- The candidate loop of `checkCharacterCollisions`: walk the candidate
stream, skip objects already in the `checkedObjects` set, and append to the
result every new candidate passing `fastAABBCheck`. -/
def collectCollisions (cb : Bounds) : List Obj → List Obj → List Obj → List Obj
  | [], _checked, res => res
  | o :: rest, checked, res =>
      if o ∈ checked then collectCollisions cb rest checked res
      else collectCollisions cb rest (o :: checked)
        (if fastAABBCheck cb (getBounds o.rect) then res ++ [o] else res)

/-- `checkCharacterCollisions`: the `collidingObjects` list produced by
querying the cells spanned by the character's bounds. -/
def checkCharacterCollisions (s : CollisionSystem) (g : Grid) (ch : Rect) : List Obj :=
  let cb := getBounds ch
  collectCollisions cb ((coveredCells s cb).flatMap g) [] []

/-- The spec's brute-force all-pairs comparator: every registered object is
tested against the character box with the exact AABB test `checkCollision`. -/
def bruteForceScan (ch : Rect) (objs : List Obj) : List Obj :=
  objs.filter fun o => checkCollision ch o.rect

/-! ## Character state machine
(BaseCharacterState, the five state classes, CharacterController) -/

/-- `CharacterStateType`. -/
inductive CState
  | idle
  | running
  | jumping
  | falling
  | landing
deriving DecidableEq, Repr

/-- The character fields read or written by the state machine
(`x`, `y`, `width`, `velocityY`, `isJumping`, `animationFrame`). -/
structure Character where
  x : ℚ
  y : ℚ
  width : ℚ
  velocityY : ℚ
  isJumping : Bool
  animationFrame : ℚ
deriving DecidableEq, Repr

/-- `ICharacterInput` (its `deltaTime` field is passed separately, as in
every call site). -/
structure CInput where
  jump : Bool
  left : Bool
  right : Bool
deriving DecidableEq, Repr

/-- `BaseCharacterState.applyGravity`: while airborne,
`velocityY += 0.8 * deltaTime`. -/
def applyGravity (c : Character) (deltaTime : ℚ) : Character :=
  if c.isJumping then { c with velocityY := c.velocityY + 0.8 * deltaTime } else c

/-- `BaseCharacterState.updatePosition`: integrate `y`, then clamp to the
ground line `GROUND_Y = 300`, zero the velocity and clear `isJumping`. -/
def updatePosition (c : Character) (deltaTime : ℚ) : Character :=
  let c1 := { c with y := c.y + c.velocityY * deltaTime }
  if c1.y ≥ 300 then { c1 with y := 300, isJumping := false, velocityY := 0 } else c1

/-- `BaseCharacterState.handleHorizontalMovement`: speed 3, clamped to
`[0, 800 - width]` (CANVAS_WIDTH = 800). -/
def handleHorizontalMovement (c : Character) (input : CInput) (deltaTime : ℚ) : Character :=
  let c1 := if input.left then { c with x := max 0 (c.x - 3 * deltaTime) } else c
  if input.right then { c1 with x := min (800 - c1.width) (c1.x + 3 * deltaTime) } else c1

/-- `IdleState.update`. -/
def idleUpdate (c : Character) (input : CInput) (deltaTime : ℚ) :
    Character × Option CState :=
  if input.jump ∧ ¬c.isJumping then (c, some .jumping)
  else if input.left ∨ input.right then
    (handleHorizontalMovement c input deltaTime, some .running)
  else
    let c1 := updatePosition (applyGravity c deltaTime) deltaTime
    if c1.isJumping ∧ c1.velocityY > 0 then (c1, some .falling) else (c1, none)

/-- `RunningState.update`. -/
def runningUpdate (c : Character) (input : CInput) (deltaTime : ℚ) :
    Character × Option CState :=
  if input.jump ∧ ¬c.isJumping then (c, some .jumping)
  else if ¬input.left ∧ ¬input.right then (c, some .idle)
  else
    let c1 := handleHorizontalMovement c input deltaTime
    let c2 := updatePosition (applyGravity c1 deltaTime) deltaTime
    if c2.isJumping ∧ c2.velocityY > 0 then (c2, some .falling)
    else ({ c2 with animationFrame := c2.animationFrame + deltaTime * 60 }, none)

/-- `JumpingState.update`. -/
def jumpingUpdate (c : Character) (input : CInput) (deltaTime : ℚ) :
    Character × Option CState :=
  let c1 := handleHorizontalMovement c input deltaTime
  let c2 := updatePosition (applyGravity c1 deltaTime) deltaTime
  if c2.velocityY > 0 then (c2, some .falling)
  else if ¬c2.isJumping then
    (c2, some (if input.left ∨ input.right then .running else .idle))
  else (c2, none)

/-- `FallingState.update`. -/
def fallingUpdate (c : Character) (input : CInput) (deltaTime : ℚ) :
    Character × Option CState :=
  let c1 := handleHorizontalMovement c input deltaTime
  let c2 := updatePosition (applyGravity c1 deltaTime) deltaTime
  if ¬c2.isJumping then (c2, some .landing) else (c2, none)

/-- `LandingState.update`; `landingTime` is the state instance's private
accumulator, `LANDING_DURATION = 0.1`. -/
def landingUpdate (landingTime : ℚ) (c : Character) (input : CInput) (deltaTime : ℚ) :
    Character × ℚ × Option CState :=
  let lt := landingTime + deltaTime
  if input.jump then (c, lt, some .jumping)
  else if lt ≥ 0.1 then
    (c, lt, some (if input.left ∨ input.right then .running else .idle))
  else (handleHorizontalMovement c input deltaTime, lt, none)

/-- Dispatch `update` on the current state instance. -/
def stateUpdate (s : CState) (landingTime : ℚ) (c : Character) (input : CInput)
    (deltaTime : ℚ) : Character × ℚ × Option CState :=
  match s with
  | .idle => let r := idleUpdate c input deltaTime; (r.1, landingTime, r.2)
  | .running => let r := runningUpdate c input deltaTime; (r.1, landingTime, r.2)
  | .jumping => let r := jumpingUpdate c input deltaTime; (r.1, landingTime, r.2)
  | .falling => let r := fallingUpdate c input deltaTime; (r.1, landingTime, r.2)
  | .landing => landingUpdate landingTime c input deltaTime

/-- The `canTransitionTo` table of each state class. -/
def canTransitionTo (s target : CState) : Bool :=
  match s with
  | .idle => decide (target = .running ∨ target = .jumping ∨ target = .falling)
  | .running => decide (target = .idle ∨ target = .jumping ∨ target = .falling)
  | .jumping =>
      decide (target = .falling ∨ target = .landing ∨ target = .running ∨ target = .idle)
  | .falling => decide (target = .landing)
  | .landing => decide (target = .idle ∨ target = .running ∨ target = .jumping)

/-- The `enter` hook of each state class (`exit` is a no-op everywhere).
`JUMP_FORCE = -15`.  Entering Landing also resets the instance's
`landingTime` accumulator. -/
def enterState (s : CState) (landingTime : ℚ) (c : Character) : ℚ × Character :=
  match s with
  | .idle => (landingTime, { c with velocityY := 0 })
  | .jumping => (landingTime, { c with velocityY := -15, isJumping := true })
  | .landing => (0, { c with velocityY := 0, isJumping := false })
  | _ => (landingTime, c)

/-- The controller-owned `AnimationState` of the extended character. -/
structure CtrlAnim where
  currentFrame : ℕ
  frameTime : ℚ
  totalFrames : ℕ
  frameRate : ℚ
  loop : Bool
  finished : Bool
deriving DecidableEq, Repr

/-- `CharacterController.updateAnimation` (without the legacy
`animationFrame` sync, applied by the caller). -/
def updateCtrlAnim (a : CtrlAnim) (deltaTime : ℚ) : CtrlAnim :=
  let a1 := { a with frameTime := a.frameTime + deltaTime }
  if a1.frameTime ≥ 1 / a1.frameRate then
    let a2 := { a1 with frameTime := 0, currentFrame := a1.currentFrame + 1 }
    if a2.currentFrame ≥ a2.totalFrames then
      if a2.loop then { a2 with currentFrame := 0 }
      else { a2 with currentFrame := a2.totalFrames - 1, finished := true }
    else a2
  else a1

/-- The mutable state of a `CharacterController`: the extended character
(the fields the claims touch), the current state tag (`_currentState` and
`_character.state` always agree), the Landing instance's timer, and the
physics bookkeeping of `updatePhysics`. -/
structure Controller where
  char : Character
  state : CState
  previousState : CState
  stateChangeTime : ℚ
  landingTime : ℚ
  anim : CtrlAnim
  grounded : Bool
  physVelocityY : ℚ
  lastGroundedTime : ℚ
deriving DecidableEq, Repr

/-- The `{from, to, timestamp}` payload dispatched to state-change
listeners. -/
structure StateChangeEvent where
  fromState : CState
  toState : CState
  timestamp : ℚ
deriving DecidableEq, Repr

/-- `CharacterController.setState`: the non-forced guard, the field
updates, the `enter` hook of the target and the listener notification.
The wall clock `performance.now()` is taken as the explicit input `now`.
All five states are registered in the `states` map, so the
unknown-state branch is unreachable. -/
def setState (ctrl : Controller) (newState : CState) (force : Bool) (now : ℚ) :
    Controller × Bool × List StateChangeEvent :=
  if ¬force ∧ ¬canTransitionTo ctrl.state newState then (ctrl, false, [])
  else
    let oldState := ctrl.state
    let r := enterState newState ctrl.landingTime ctrl.char
    ({ ctrl with
        char := r.2
        landingTime := r.1
        previousState := oldState
        state := newState
        stateChangeTime := now }, true,
      [⟨oldState, newState, now⟩])

/-- `CharacterController.update`: state update, conditional transition,
animation update with the legacy `animationFrame` sync, then
`updatePhysics` (`grounded = y >= GROUND_Y && !isJumping`, the
last-grounded timestamp, and the `physics.velocityY` sync). -/
def ctrlUpdate (ctrl : Controller) (input : CInput) (deltaTime now : ℚ) :
    Controller × List StateChangeEvent :=
  let r := stateUpdate ctrl.state ctrl.landingTime ctrl.char input deltaTime
  let ctrl1 := { ctrl with char := r.1, landingTime := r.2.1 }
  let step2 :=
    match r.2.2 with
    | some t =>
        if t ≠ ctrl1.state then
          let s := setState ctrl1 t false now
          (s.1, s.2.2)
        else (ctrl1, [])
    | none => (ctrl1, [])
  let ctrl2 := step2.1
  let a := updateCtrlAnim ctrl2.anim deltaTime
  let ctrl3 := { ctrl2 with
    anim := a
    char := { ctrl2.char with animationFrame := (a.currentFrame : ℚ) } }
  let g : Bool := decide (ctrl3.char.y ≥ 300 ∧ ¬ctrl3.char.isJumping)
  ({ ctrl3 with
      grounded := g
      lastGroundedTime := if g ∧ ¬ctrl3.grounded then now else ctrl3.lastGroundedTime
      physVelocityY := ctrl3.char.velocityY }, step2.2)

/-- A sequence of controller update steps, each with its input snapshot,
delta time and wall-clock reading. -/
def runSteps (ctrl : Controller) (steps : List (CInput × ℚ × ℚ)) : Controller :=
  steps.foldl (fun c st => (ctrlUpdate c st.1 st.2.1 st.2.2).1) ctrl

/-! ## AnimationController (frame clips and tweens) -/

/-- `AnimationClip` (the optional `duration` field is never read). -/
structure AnimationClip where
  name : String
  frames : List ℕ
  frameRate : ℚ
  loop : Bool
deriving DecidableEq, Repr

/-- `AnimationInstance`. -/
structure AnimationInstance where
  clip : AnimationClip
  currentFrame : ℕ
  frameTime : ℚ
  totalTime : ℚ
  speed : ℚ
  paused : Bool
  finished : Bool
deriving DecidableEq, Repr

/-- The `animations` map of the controller, keyed by instance id. -/
abbrev AnimMap : Type := List (String × AnimationInstance)

/-- `AnimationController.getCurrentFrame`: the frame value at the current
head, or the default `0` for an unregistered id.  JavaScript's
`frames[currentFrame] || 0` yields `0` both for an out-of-range index
(`undefined || 0`) and for the stored value `0`, which is exactly
`List.getD _ _ 0`. -/
def getCurrentFrame (anims : AnimMap) (id : String) : ℕ :=
  match anims.lookup id with
  | none => 0
  | some a => a.clip.frames.getD a.currentFrame 0

/-- `AnimationController.isAnimationFinished`: `animation?.finished ?? true`. -/
def isAnimationFinished (anims : AnimMap) (id : String) : Bool :=
  match anims.lookup id with
  | none => true
  | some a => a.finished

/-- `AnimationController.stopAnimation`: `animations.delete(id)`. -/
def stopAnimation (anims : AnimMap) (id : String) : AnimMap :=
  anims.filter (fun p => ¬(p.1 = id))

/-- `InterpolationType`. -/
inductive InterpolationType
  | linear
  | easeIn
  | easeOut
  | easeInOut
  | bounce
  | elastic
deriving DecidableEq, Repr

/-- `AnimationController.getEasingFunction`.  The two transcendental
pieces of the elastic branch are abstracted as parameters, since they are
irrational: `pow2 e` stands for `Math.pow(2, e)` and `sin23 u` for
`Math.sin(u * (2 * Math.PI) / 3)` (the source multiplies the phase
`t * 10 - 10.75` by the constant `c4 = 2π/3`).  All other branches are
exact rational arithmetic.  The special cases `t = 0 ↦ 0` and `t = 1 ↦ 1`
of the elastic branch do not touch the transcendental part. -/
def getEasingFunction (pow2 sin23 : ℚ → ℚ) : InterpolationType → ℚ → ℚ
  | .linear => fun t => t
  | .easeIn => fun t => t * t
  | .easeOut => fun t => 1 - (1 - t) * (1 - t)
  | .easeInOut => fun t => if t < 0.5 then 2 * t * t else 1 - (-2 * t + 2) ^ 2 / 2
  | .bounce => fun t => 1 + (1.70158 + 1) * (t - 1) ^ 3 + 1.70158 * (t - 1) ^ 2
  | .elastic => fun t =>
      if t = 0 then 0
      else if t = 1 then 1
      else -(pow2 (10 * t - 10)) * sin23 (t * 10 - 10.75)

/-- `TweenAnimation`.  The tween id and the `(target, property)` pair are
embedded as numeric tags; the stored easing closure is represented by the
`InterpolationType` it was built from (`createTween` always stores
`getEasingFunction(easing)`). -/
structure TweenAnimation where
  tid : ℕ
  targetId : ℕ
  fromVal : ℚ
  toVal : ℚ
  duration : ℚ
  elapsed : ℚ
  easing : InterpolationType
deriving DecidableEq, Repr

/-- `Math.min(tween.elapsed / tween.duration, 1)`. -/
def tweenProgress (tw : TweenAnimation) : ℚ := min (tw.elapsed / tw.duration) 1

/-- The value written to the target:
`from + (to - from) * easing(progress)`. -/
def tweenValue (pow2 sin23 : ℚ → ℚ) (tw : TweenAnimation) : ℚ :=
  tw.fromVal + (tw.toVal - tw.fromVal) *
    getEasingFunction pow2 sin23 tw.easing (tweenProgress tw)

/-- `AnimationController.updateTweenAnimations`: advance every tween by
`dt`, write the eased value to each target (the returned write list, in
iteration order), and delete every tween whose progress reached 1 within
the same call. -/
def updateTweenAnimations (pow2 sin23 : ℚ → ℚ) (tweens : List TweenAnimation)
    (deltaTime : ℚ) : List TweenAnimation × List (ℕ × ℚ) :=
  let stepped := tweens.map (fun tw => { tw with elapsed := tw.elapsed + deltaTime })
  let writes := stepped.map (fun tw => (tw.targetId, tweenValue pow2 sin23 tw))
  (stepped.filter (fun tw => ¬(tweenProgress tw ≥ 1)), writes)

/-! ## PerformanceManager: quality adjustment and ObjectPool -/

/-- `PerformanceManager.adjustQuality`: asymmetric hysteresis on the
quality factor, one bounded step per frame. -/
def adjustQuality (currentQuality avgFps targetFps : ℚ) : ℚ :=
  if avgFps < targetFps * 0.8 then max 0.1 (currentQuality - 0.1)
  else if avgFps > targetFps * 0.95 ∧ currentQuality < 1 then
    min 1 (currentQuality + 0.05)
  else currentQuality

/-- The quality factor after a sequence of frame-end adjustments starting
from the initial `currentQuality = 1.0`, one average-FPS reading per
frame. -/
def runQuality (targetFps : ℚ) (samples : List ℚ) : ℚ :=
  samples.foldl (fun q avg => adjustQuality q avg targetFps) 1

/-- `ObjectPool`: the free list (`this.pool`) and the configured maximum.
The construct and reset functions are passed to the operations. -/
structure Pool (T : Type) where
  free : List T
  maxSize : ℕ
deriving DecidableEq, Repr

/-- The `ObjectPool` constructor: the free list is filled with
`initialSize` freshly constructed instances. -/
def mkPool {T : Type} (createFn : Unit → T) (initialSize maxSize : ℕ) : Pool T :=
  ⟨List.replicate initialSize (createFn ()), maxSize⟩

/-- `ObjectPool.get`: pop the last free instance, or construct a new one
leaving the free list untouched. -/
def poolGet {T : Type} (createFn : Unit → T) (p : Pool T) : T × Pool T :=
  match p.free.getLast? with
  | some o => (o, { p with free := p.free.dropLast })
  | none => (createFn (), p)

/-- `ObjectPool.release`: if the free list is below `maxSize`, reset the
instance and push it; otherwise discard it untouched.  The boolean records
whether the reset function was invoked. -/
def poolRelease {T : Type} (resetFn : T → T) (p : Pool T) (obj : T) : Pool T × Bool :=
  if p.free.length < p.maxSize then ({ p with free := p.free ++ [resetFn obj] }, true)
  else (p, false)

/-- A caller-side pool operation. -/
inductive PoolOp (T : Type)
  | get
  | release (obj : T)

/-- One pool operation applied to the pool state. -/
def poolStep {T : Type} (createFn : Unit → T) (resetFn : T → T) (p : Pool T) :
    PoolOp T → Pool T
  | .get => (poolGet createFn p).2
  | .release obj => (poolRelease resetFn p obj).1

/-- The pool after a sequence of get/release operations. -/
def runPool {T : Type} (createFn : Unit → T) (resetFn : T → T) (p : Pool T)
    (ops : List (PoolOp T)) : Pool T :=
  ops.foldl (poolStep createFn resetFn) p

/-! ## Concrete instances and proof-side predicates -/

/-- Proof-side predicate: the character's x lies in the play area
`[0, 800 - width]`. -/
def xWithinBounds (c : Character) : Prop := 0 ≤ c.x ∧ c.x ≤ 800 - c.width

/-- Proof-side predicate: the rectangle lies inside the canvas extent and
has nonnegative size. -/
def rectInCanvas (s : CollisionSystem) (r : Rect) : Prop :=
  0 ≤ r.x ∧ r.x + r.width ≤ s.canvasWidth ∧
    0 ≤ r.y ∧ r.y + r.height ≤ s.canvasHeight ∧ 0 ≤ r.width ∧ 0 ≤ r.height

/-- The empty input snapshot. -/
def noInput : CInput := ⟨false, false, false⟩

/-- A controller freshly constructed at the ground line (y = 300, Idle). -/
def baseCtrl : Controller :=
  { char := { x := 100, y := 300, width := 40, velocityY := 0, isJumping := false,
              animationFrame := 0 }
    state := .idle
    previousState := .idle
    stateChangeTime := 0
    landingTime := 0
    anim := { currentFrame := 0, frameTime := 0, totalFrames := 8, frameRate := 12,
              loop := true, finished := false }
    grounded := true
    physVelocityY := 0
    lastGroundedTime := 0 }

/-- An airborne controller one step above the ground line. -/
def airCtrl : Controller :=
  { char := { x := 100, y := 299, width := 40, velocityY := 0.2, isJumping := true,
              animationFrame := 0 }
    state := .jumping
    previousState := .idle
    stateChangeTime := 0
    landingTime := 0
    anim := { currentFrame := 0, frameTime := 0, totalFrames := 8, frameRate := 12,
              loop := true, finished := false }
    grounded := false
    physVelocityY := 0.2
    lastGroundedTime := 0 }

/-- The controller immediately after the transition into Jumping from the
ground start (y = 300): `enter` has set `velocityY = -15` and the airborne
flag. -/
def jumpCtrl : Controller := (setState baseCtrl .jumping false 0).1

/-- The jump scenario trace: update steps with no input and dt = 1, wall
clock fixed at 0. -/
def jumpTrace : ℕ → Controller
  | 0 => jumpCtrl
  | n + 1 => (ctrlUpdate (jumpTrace n) noInput 1 0).1

/-- A 1-by-1-cell collision system (canvas 100 by 100, cell size 100). -/
def sysA : CollisionSystem := ⟨100, 100, 100⟩

/-- An object lying wholly beyond the right edge of `sysA`'s grid. -/
def objA : Obj := ⟨0, ⟨150, 10, 10, 10⟩⟩

/-- A character box straddling the right edge of `sysA`'s grid and
overlapping `objA`. -/
def chA : Rect := ⟨145, 5, 20, 20⟩

/-- A collision system with the game's canvas and the default cell size. -/
def sysB : CollisionSystem := ⟨800, 400, 100⟩

/-- A character box inside the canvas of `sysB`. -/
def chB : Rect := ⟨50, 50, 40, 60⟩

/-- Two objects inside the canvas of `sysB`; the second overlaps `chB`. -/
def objsB : List Obj := [⟨0, ⟨200, 200, 20, 20⟩⟩, ⟨1, ⟨60, 80, 30, 30⟩⟩]

/-! ## Helper lemmas -/

lemma mem_intRange {a b i : ℤ} : i ∈ intRange a b ↔ a ≤ i ∧ i ≤ b := by
  unfold intRange
  simp only [List.mem_map, List.mem_range]
  constructor
  · rintro ⟨k, hk, rfl⟩
    omega
  · rintro ⟨ha, hb⟩
    exact ⟨(i - a).toNat, by omega, by omega⟩

lemma mem_coveredCells {s : CollisionSystem} {b : Bounds} {c : ℤ × ℤ} :
    c ∈ coveredCells s b ↔
      (cellStartX s b ≤ c.1 ∧ c.1 ≤ cellEndX s b) ∧
        (cellStartY s b ≤ c.2 ∧ c.2 ≤ cellEndY s b) := by
  unfold coveredCells
  simp only [List.mem_flatMap, List.mem_map, mem_intRange]
  constructor
  · rintro ⟨i, hi, j, hj, rfl⟩
    exact ⟨hi, hj⟩
  · rintro ⟨hi, hj⟩
    exact ⟨c.1, hi, c.2, hj, rfl⟩

lemma mem_foldGrid {s : CollisionSystem} {objs : List Obj} {o : Obj} {c : ℤ × ℤ} :
    ∀ g : Grid, o ∈ objs.foldl (addObjectToGrid s) g c ↔
      o ∈ g c ∨ (o ∈ objs ∧ c ∈ coveredCells s (getBounds o.rect)) := by
  induction objs with
  | nil => intro g; simp
  | cons a rest ih =>
      intro g
      rw [List.foldl_cons, ih]
      unfold addObjectToGrid
      by_cases hc : c ∈ coveredCells s (getBounds a.rect)
      · rw [if_pos hc]
        simp only [List.mem_append, List.mem_cons, List.not_mem_nil, or_false,
          List.mem_cons]
        constructor
        · rintro ((h | rfl) | ⟨h1, h2⟩)
          · exact Or.inl h
          · exact Or.inr ⟨Or.inl rfl, hc⟩
          · exact Or.inr ⟨Or.inr h1, h2⟩
        · rintro (h | ⟨(rfl | h1), h2⟩)
          · exact Or.inl (Or.inl h)
          · exact Or.inl (Or.inr rfl)
          · exact Or.inr ⟨h1, h2⟩
      · rw [if_neg hc]
        simp only [List.mem_cons]
        constructor
        · rintro (h | ⟨h1, h2⟩)
          · exact Or.inl h
          · exact Or.inr ⟨Or.inr h1, h2⟩
        · rintro (h | ⟨(rfl | h1), h2⟩)
          · exact Or.inl h
          · exact absurd h2 hc
          · exact Or.inr ⟨h1, h2⟩

lemma mem_buildGrid {s : CollisionSystem} {objs : List Obj} {o : Obj} {c : ℤ × ℤ} :
    o ∈ buildGrid s objs c ↔ o ∈ objs ∧ c ∈ coveredCells s (getBounds o.rect) := by
  unfold buildGrid
  rw [mem_foldGrid]
  unfold clearGrid
  simp

lemma mem_collectCollisions {cb : Bounds} {o : Obj} :
    ∀ (cands checked res : List Obj),
      o ∈ collectCollisions cb cands checked res ↔
        o ∈ res ∨ (o ∈ cands ∧ o ∉ checked ∧
          fastAABBCheck cb (getBounds o.rect) = true) := by
  intro cands
  induction cands with
  | nil => intro checked res; simp [collectCollisions]
  | cons a rest ih =>
      intro checked res
      unfold collectCollisions
      by_cases hch : a ∈ checked
      · rw [if_pos hch, ih]
        simp only [List.mem_cons]
        constructor
        · rintro (h | ⟨h1, h2, h3⟩)
          · exact Or.inl h
          · exact Or.inr ⟨Or.inr h1, h2, h3⟩
        · rintro (h | ⟨(rfl | h1), h2, h3⟩)
          · exact Or.inl h
          · exact absurd hch h2
          · exact Or.inr ⟨h1, h2, h3⟩
      · rw [if_neg hch, ih]
        by_cases hab : fastAABBCheck cb (getBounds a.rect) = true
        · rw [if_pos hab]
          simp only [List.mem_append, List.mem_cons, List.not_mem_nil, or_false]
          constructor
          · rintro ((h | rfl) | ⟨h1, h2, h3⟩)
            · exact Or.inl h
            · exact Or.inr ⟨Or.inl rfl, hch, hab⟩
            · exact Or.inr ⟨Or.inr h1, fun hh => h2 (Or.inr hh), h3⟩
          · rintro (h | ⟨(rfl | h1), h2, h3⟩)
            · exact Or.inl (Or.inl h)
            · exact Or.inl (Or.inr rfl)
            · by_cases hoa : o = a
              · exact Or.inl (Or.inr hoa)
              · exact Or.inr ⟨h1, by simp [hoa, h2], h3⟩
        · rw [if_neg hab]
          simp only [List.mem_cons]
          constructor
          · rintro (h | ⟨h1, h2, h3⟩)
            · exact Or.inl h
            · exact Or.inr ⟨Or.inr h1, fun hh => h2 (Or.inr hh), h3⟩
          · rintro (h | ⟨(rfl | h1), h2, h3⟩)
            · exact Or.inl h
            · exact absurd h3 hab
            · by_cases hoa : o = a
              · exact absurd (hoa ▸ h3) hab
              · exact Or.inr ⟨h1, by simp [hoa, h2], h3⟩

lemma fastAABB_eq_checkCollision (r1 r2 : Rect) :
    fastAABBCheck (getBounds r1) (getBounds r2) = checkCollision r1 r2 := rfl

lemma cell_overlap {cs W a1 b1 a2 b2 : ℚ} (hcs : 0 < cs)
    (h10 : 0 ≤ a1) (h1W : b1 ≤ W) (h20 : 0 ≤ a2) (h2W : b2 ≤ W)
    (h1 : a1 ≤ b1) (h2 : a2 ≤ b2) (hab : a1 < b2) (hba : a2 < b1) :
    ∃ i : ℤ, (max 0 ⌊a1 / cs⌋ ≤ i ∧ i ≤ min (⌈W / cs⌉ - 1) ⌊b1 / cs⌋) ∧
      (max 0 ⌊a2 / cs⌋ ≤ i ∧ i ≤ min (⌈W / cs⌉ - 1) ⌊b2 / cs⌋) := by
  have hpa1 : a1 ≤ max a1 a2 := le_max_left _ _
  have hpa2 : a2 ≤ max a1 a2 := le_max_right _ _
  have hpb1 : max a1 a2 ≤ b1 := max_le h1 (le_of_lt hba)
  have hpb2 : max a1 a2 ≤ b2 := max_le (le_of_lt hab) h2
  have hp0 : 0 ≤ max a1 a2 := le_trans h10 hpa1
  have hpW : max a1 a2 < W :=
    max_lt (lt_of_lt_of_le hab h2W) (lt_of_lt_of_le hba h1W)
  have hceil : ⌊max a1 a2 / cs⌋ < ⌈W / cs⌉ := by
    apply Int.floor_lt.mpr
    exact lt_of_lt_of_le ((div_lt_div_iff_of_pos_right hcs).mpr hpW) (Int.le_ceil _)
  refine ⟨⌊max a1 a2 / cs⌋, ⟨?_, ?_⟩, ⟨?_, ?_⟩⟩
  · exact max_le (Int.floor_nonneg.mpr (div_nonneg hp0 hcs.le))
      (Int.floor_le_floor ((div_le_div_iff_of_pos_right hcs).mpr hpa1))
  · exact le_min (by omega)
      (Int.floor_le_floor ((div_le_div_iff_of_pos_right hcs).mpr hpb1))
  · exact max_le (Int.floor_nonneg.mpr (div_nonneg hp0 hcs.le))
      (Int.floor_le_floor ((div_le_div_iff_of_pos_right hcs).mpr hpa2))
  · exact le_min (by omega)
      (Int.floor_le_floor ((div_le_div_iff_of_pos_right hcs).mpr hpb2))

lemma hM_x {c : Character} {input : CInput} {dt : ℚ} (h : xWithinBounds c)
    (hdt : 0 ≤ dt) :
    xWithinBounds (handleHorizontalMovement c input dt) ∧
      (handleHorizontalMovement c input dt).width = c.width := by
  obtain ⟨hx0, hx1⟩ := h
  have hw : (0:ℚ) ≤ 800 - c.width := le_trans hx0 hx1
  unfold handleHorizontalMovement xWithinBounds
  split_ifs with hl hr hr <;> dsimp only
  · exact ⟨⟨le_min hw (add_nonneg (le_max_left 0 _) (by linarith)),
      min_le_left _ _⟩, rfl⟩
  · exact ⟨⟨le_max_left 0 _, max_le hw (by linarith)⟩, rfl⟩
  · exact ⟨⟨le_min hw (by linarith), min_le_left _ _⟩, rfl⟩
  · exact ⟨⟨hx0, hx1⟩, rfl⟩

lemma applyGravity_x {c : Character} {dt : ℚ} :
    (applyGravity c dt).x = c.x ∧ (applyGravity c dt).width = c.width := by
  unfold applyGravity
  split <;> exact ⟨rfl, rfl⟩

lemma updatePosition_x {c : Character} {dt : ℚ} :
    (updatePosition c dt).x = c.x ∧ (updatePosition c dt).width = c.width := by
  unfold updatePosition
  dsimp only
  split <;> exact ⟨rfl, rfl⟩

lemma xWithinBounds_congr {c c2 : Character} (hx : c2.x = c.x) (hw : c2.width = c.width)
    (h : xWithinBounds c) : xWithinBounds c2 := by
  unfold xWithinBounds at h ⊢
  rw [hx, hw]
  exact h

lemma integ_pres {c : Character} {dt : ℚ} (h : xWithinBounds c) :
    xWithinBounds (updatePosition (applyGravity c dt) dt) ∧
      (updatePosition (applyGravity c dt) dt).width = c.width := by
  obtain ⟨h1, h2⟩ := @applyGravity_x c dt
  obtain ⟨h3, h4⟩ := @updatePosition_x (applyGravity c dt) dt
  exact ⟨xWithinBounds_congr (h3.trans h1) (h4.trans h2) h, h4.trans h2⟩

lemma integ_hM_pres {c : Character} {input : CInput} {dt : ℚ} (h : xWithinBounds c)
    (hdt : 0 ≤ dt) :
    xWithinBounds (updatePosition (applyGravity (handleHorizontalMovement c input dt) dt) dt) ∧
      (updatePosition (applyGravity (handleHorizontalMovement c input dt) dt) dt).width
        = c.width := by
  obtain ⟨hm, hmw⟩ := @hM_x c input dt h hdt
  obtain ⟨hi, hiw⟩ := @integ_pres (handleHorizontalMovement c input dt) dt hm
  exact ⟨hi, hiw.trans hmw⟩

lemma stateUpdate_x {s : CState} {lt : ℚ} {c : Character} {input : CInput} {dt : ℚ}
    (h : xWithinBounds c) (hdt : 0 ≤ dt) :
    xWithinBounds (stateUpdate s lt c input dt).1 ∧
      (stateUpdate s lt c input dt).1.width = c.width := by
  cases s
  case idle =>
    simp only [stateUpdate, idleUpdate]
    split_ifs with h1 h2 h3 <;> try dsimp only
    · exact ⟨h, rfl⟩
    · exact hM_x h hdt
    · exact integ_pres h
    · exact integ_pres h
  case running =>
    simp only [stateUpdate, runningUpdate]
    split_ifs with h1 h2 h3 <;> try dsimp only
    · exact ⟨h, rfl⟩
    · exact ⟨h, rfl⟩
    · exact integ_hM_pres h hdt
    · exact ⟨(integ_hM_pres h hdt).1, (integ_hM_pres h hdt).2⟩
  case jumping =>
    simp only [stateUpdate, jumpingUpdate]
    split_ifs <;> exact integ_hM_pres h hdt
  case falling =>
    simp only [stateUpdate, fallingUpdate]
    split_ifs <;> exact integ_hM_pres h hdt
  case landing =>
    simp only [stateUpdate, landingUpdate]
    split_ifs <;>
      first
        | exact ⟨h, rfl⟩
        | exact hM_x h hdt

lemma enterState_x {s : CState} {lt : ℚ} {c : Character} :
    (enterState s lt c).2.x = c.x ∧ (enterState s lt c).2.width = c.width := by
  cases s <;> exact ⟨rfl, rfl⟩

lemma setState_x {ctrl : Controller} {t : CState} {force : Bool} {now : ℚ} :
    (setState ctrl t force now).1.char.x = ctrl.char.x ∧
      (setState ctrl t force now).1.char.width = ctrl.char.width := by
  unfold setState
  split_ifs with h1
  · exact ⟨rfl, rfl⟩
  · exact enterState_x

lemma hM_y {c : Character} {input : CInput} {dt : ℚ} :
    (handleHorizontalMovement c input dt).y = c.y := by
  unfold handleHorizontalMovement
  split_ifs <;> rfl

lemma updatePosition_y_le {c : Character} {dt : ℚ} : (updatePosition c dt).y ≤ 300 := by
  unfold updatePosition
  dsimp only
  split_ifs with h
  · exact le_refl _
  · push_neg at h
    exact le_of_lt h

lemma updatePosition_ground {c : Character} {dt : ℚ} (h : (updatePosition c dt).y = 300) :
    (updatePosition c dt).isJumping = false ∧ (updatePosition c dt).velocityY = 0 := by
  unfold updatePosition at h ⊢
  dsimp only at h ⊢
  split_ifs at h ⊢ with hc
  · exact ⟨rfl, rfl⟩
  · push_neg at hc
    exact absurd h (ne_of_lt hc)

lemma stateUpdate_y {s : CState} {lt : ℚ} {c : Character} {input : CInput} {dt : ℚ}
    (hy : c.y ≤ 300) : (stateUpdate s lt c input dt).1.y ≤ 300 := by
  cases s <;>
    simp only [stateUpdate, idleUpdate, runningUpdate, jumpingUpdate, fallingUpdate,
      landingUpdate] <;>
    split_ifs <;>
    first
      | exact hy
      | (rw [hM_y]; exact hy)
      | exact updatePosition_y_le

lemma enterState_y {s : CState} {lt : ℚ} {c : Character} :
    (enterState s lt c).2.y = c.y := by
  cases s <;> rfl

lemma setState_char_y {ctrl : Controller} {t : CState} {force : Bool} {now : ℚ} :
    (setState ctrl t force now).1.char.y = ctrl.char.y := by
  unfold setState
  split_ifs with h1
  · rfl
  · exact enterState_y

lemma ctrlUpdate_y {ctrl : Controller} {input : CInput} {dt now : ℚ}
    (hy : ctrl.char.y ≤ 300) : (ctrlUpdate ctrl input dt now).1.char.y ≤ 300 := by
  have hs := @stateUpdate_y ctrl.state ctrl.landingTime ctrl.char input dt hy
  unfold ctrlUpdate
  dsimp only
  cases hopt : (stateUpdate ctrl.state ctrl.landingTime ctrl.char input dt).2.2 with
  | none =>
      simp only [hopt]
      exact hs
  | some t =>
      simp only [hopt]
      split_ifs with hne
      · dsimp only
        rw [setState_char_y]
        exact hs
      · exact hs

lemma runSteps_y (steps : List (CInput × ℚ × ℚ)) :
    ∀ ctrl : Controller, ctrl.char.y ≤ 300 → (runSteps ctrl steps).char.y ≤ 300 := by
  induction steps with
  | nil => intro ctrl hy; exact hy
  | cons st rest ih =>
      intro ctrl hy
      exact ih _ (ctrlUpdate_y hy)

lemma stateUpdate_touchdown {s : CState} {lt : ℚ} {c : Character} {input : CInput}
    {dt : ℚ} (hy : c.y < 300) (hres : (stateUpdate s lt c input dt).1.y = 300) :
    (stateUpdate s lt c input dt).1.isJumping = false ∧
      (stateUpdate s lt c input dt).1.velocityY = 0 ∧
      ∀ t, (stateUpdate s lt c input dt).2.2 = some t → t ≠ CState.jumping := by
  cases s
  case idle =>
    simp only [stateUpdate, idleUpdate] at hres ⊢
    split_ifs at hres ⊢ with h1 h2 h3
    · exact absurd hres (ne_of_lt hy)
    · rw [hM_y] at hres
      exact absurd hres (ne_of_lt hy)
    · obtain ⟨hij, hvy⟩ := updatePosition_ground hres
      rw [hij] at h3
      simp at h3
    · obtain ⟨hij, hvy⟩ := updatePosition_ground hres
      exact ⟨hij, hvy, fun t ht => by simp at ht⟩
  case running =>
    simp only [stateUpdate, runningUpdate] at hres ⊢
    split_ifs at hres ⊢ with h1 h2 h3
    · exact absurd hres (ne_of_lt hy)
    · exact absurd hres (ne_of_lt hy)
    · obtain ⟨hij, hvy⟩ := updatePosition_ground hres
      rw [hij] at h3
      simp at h3
    · dsimp only at hres ⊢
      obtain ⟨hij, hvy⟩ := updatePosition_ground hres
      exact ⟨hij, hvy, fun t ht => by simp at ht⟩
  case jumping =>
    simp only [stateUpdate, jumpingUpdate] at hres ⊢
    split_ifs at hres ⊢ with h1 h2 h3
    · obtain ⟨hij, hvy⟩ := updatePosition_ground hres
      rw [hvy] at h1
      exact absurd h1 (lt_irrefl 0)
    · obtain ⟨hij, hvy⟩ := updatePosition_ground hres
      rw [hij] at h2
      simp at h2
    · obtain ⟨hij, hvy⟩ := updatePosition_ground hres
      refine ⟨hij, hvy, fun t ht => ?_⟩
      simp only [Option.some_inj] at ht
      exact ht ▸ (by decide : CState.running ≠ CState.jumping)
    · obtain ⟨hij, hvy⟩ := updatePosition_ground hres
      refine ⟨hij, hvy, fun t ht => ?_⟩
      simp only [Option.some_inj] at ht
      exact ht ▸ (by decide : CState.idle ≠ CState.jumping)
  case falling =>
    simp only [stateUpdate, fallingUpdate] at hres ⊢
    split_ifs at hres ⊢ with h1
    · obtain ⟨hij, hvy⟩ := updatePosition_ground hres
      rw [hij] at h1
      simp at h1
    · obtain ⟨hij, hvy⟩ := updatePosition_ground hres
      refine ⟨hij, hvy, fun t ht => ?_⟩
      simp only [Option.some_inj] at ht
      exact ht ▸ (by decide : CState.landing ≠ CState.jumping)
  case landing =>
    simp only [stateUpdate, landingUpdate] at hres ⊢
    split_ifs at hres ⊢ with h1 h2 h3
    · exact absurd hres (ne_of_lt hy)
    · exact absurd hres (ne_of_lt hy)
    · exact absurd hres (ne_of_lt hy)
    · rw [hM_y] at hres
      exact absurd hres (ne_of_lt hy)

lemma enterState_touch {t : CState} {lt : ℚ} {c : Character} (ht : t ≠ CState.jumping)
    (hij : c.isJumping = false) (hv : c.velocityY = 0) :
    (enterState t lt c).2.isJumping = false ∧ (enterState t lt c).2.velocityY = 0 ∧
      (enterState t lt c).2.y = c.y := by
  cases t
  · exact ⟨hij, rfl, rfl⟩
  · exact ⟨hij, hv, rfl⟩
  · exact absurd rfl ht
  · exact ⟨hij, hv, rfl⟩
  · exact ⟨rfl, rfl, rfl⟩

lemma ctrlUpdate_touchdown {ctrl : Controller} {input : CInput} {dt now : ℚ}
    (hy : ctrl.char.y < 300)
    (hres : (ctrlUpdate ctrl input dt now).1.char.y = 300) :
    (ctrlUpdate ctrl input dt now).1.char.velocityY = 0 ∧
      (ctrlUpdate ctrl input dt now).1.char.isJumping = false ∧
      (ctrlUpdate ctrl input dt now).1.grounded = true := by
  unfold ctrlUpdate at hres ⊢
  dsimp only at hres ⊢
  cases hopt : (stateUpdate ctrl.state ctrl.landingTime ctrl.char input dt).2.2 with
  | none =>
      simp only [hopt] at hres ⊢
      obtain ⟨hij, hvy, _⟩ := stateUpdate_touchdown hy hres
      refine ⟨hvy, hij, ?_⟩
      rw [decide_eq_true_eq]
      exact ⟨ge_of_eq hres, by rw [hij]; simp⟩
  | some t =>
      simp only [hopt] at hres ⊢
      split_ifs at hres ⊢ with hne
      · simp only [setState, Bool.false_eq_true, not_false_eq_true, true_and]
          at hres ⊢
        split_ifs at hres ⊢ with hcan
        · have hres2 := hres
          rw [enterState_y] at hres2
          obtain ⟨hij, hvy, hnot⟩ := stateUpdate_touchdown hy hres2
          have ht := hnot t hopt
          have het := @enterState_touch t
            (stateUpdate ctrl.state ctrl.landingTime ctrl.char input dt).2.1
            (stateUpdate ctrl.state ctrl.landingTime ctrl.char input dt).1 ht hij hvy
          refine ⟨het.2.1, het.1, ?_⟩
          rw [decide_eq_true_eq]
          exact ⟨ge_of_eq hres, by rw [het.1]; simp⟩
        · dsimp only at hres ⊢
          obtain ⟨hij, hvy, _⟩ := stateUpdate_touchdown hy hres
          refine ⟨hvy, hij, ?_⟩
          rw [decide_eq_true_eq]
          exact ⟨ge_of_eq hres, by rw [hij]; simp⟩
      · obtain ⟨hij, hvy, _⟩ := stateUpdate_touchdown hy hres
        refine ⟨hvy, hij, ?_⟩
        rw [decide_eq_true_eq]
        exact ⟨ge_of_eq hres, by rw [hij]; simp⟩

lemma adjustQuality_mem {q avg targetFps : ℚ} (h0 : 0.1 ≤ q) (h1 : q ≤ 1) :
    0.1 ≤ adjustQuality q avg targetFps ∧ adjustQuality q avg targetFps ≤ 1 := by
  unfold adjustQuality
  split_ifs with hlow hhigh
  · exact ⟨le_max_left _ _, max_le (by norm_num) (by linarith)⟩
  · exact ⟨le_min (by norm_num) (by linarith), min_le_left _ _⟩
  · exact ⟨h0, h1⟩

lemma foldQuality_mem (targetFps : ℚ) (samples : List ℚ) :
    ∀ q : ℚ, 0.1 ≤ q → q ≤ 1 →
      0.1 ≤ samples.foldl (fun q avg => adjustQuality q avg targetFps) q ∧
        samples.foldl (fun q avg => adjustQuality q avg targetFps) q ≤ 1 := by
  induction samples with
  | nil => intro q h0 h1; exact ⟨h0, h1⟩
  | cons a rest ih =>
      intro q h0 h1
      have h := @adjustQuality_mem q a targetFps h0 h1
      exact ih _ h.1 h.2

lemma poolStep_len {T : Type} (createFn : Unit → T) (resetFn : T → T)
    (p : Pool T) (op : PoolOp T) (h : p.free.length ≤ p.maxSize) :
    (poolStep createFn resetFn p op).free.length ≤ (poolStep createFn resetFn p op).maxSize ∧
      (poolStep createFn resetFn p op).maxSize = p.maxSize := by
  cases op with
  | get =>
      unfold poolStep poolGet
      cases hl : p.free.getLast? with
      | none => simp only [hl]; exact ⟨h, by trivial⟩
      | some o =>
          simp only [hl, List.length_dropLast]
          exact ⟨by omega, by trivial⟩
  | release obj =>
      unfold poolStep poolRelease
      split_ifs with hlt
      · simp only [List.length_append, List.length_cons, List.length_nil]
        exact ⟨by omega, by trivial⟩
      · exact ⟨h, by trivial⟩

lemma runPool_len {T : Type} (createFn : Unit → T) (resetFn : T → T)
    (ops : List (PoolOp T)) :
    ∀ p : Pool T, p.free.length ≤ p.maxSize →
      (runPool createFn resetFn p ops).free.length ≤
        (runPool createFn resetFn p ops).maxSize ∧
      (runPool createFn resetFn p ops).maxSize = p.maxSize := by
  induction ops with
  | nil => intro p h; exact ⟨h, rfl⟩
  | cons op rest ih =>
      intro p h
      have h1 := poolStep_len createFn resetFn p op h
      have h2 := ih (poolStep createFn resetFn p op) h1.1
      exact ⟨h2.1, h2.2.trans h1.2⟩

lemma easing_endpoints (pow2 sin23 : ℚ → ℚ) (k : InterpolationType) :
    getEasingFunction pow2 sin23 k 0 = 0 ∧ getEasingFunction pow2 sin23 k 1 = 1 := by
  cases k <;> simp [getEasingFunction] <;> norm_num

/-! ## Jump scenario trace -/

lemma jumpTrace_1 : jumpTrace 1 =
  { char := { x := 100, y := (1429 / 5), width := 40, velocityY := (-71 / 5),
              isJumping := true, animationFrame := 1 }
    state := .jumping
    previousState := .idle
    stateChangeTime := 0
    landingTime := 0
    anim := { currentFrame := 1, frameTime := 0, totalFrames := 8,
              frameRate := 12, loop := true, finished := false }
    grounded := false
    physVelocityY := (-71 / 5)
    lastGroundedTime := 0 } := by
  have h : jumpTrace 1 = (ctrlUpdate (jumpTrace 0) noInput 1 0).1 := rfl
  have h0 : jumpTrace 0 = jumpCtrl := rfl
  rw [h, h0]
  norm_num +decide [jumpCtrl, baseCtrl, ctrlUpdate, stateUpdate, jumpingUpdate, handleHorizontalMovement, applyGravity, updatePosition, setState, enterState, canTransitionTo, updateCtrlAnim, noInput]

lemma jumpTrace_2 : jumpTrace 2 =
  { char := { x := 100, y := (1362 / 5), width := 40, velocityY := (-67 / 5),
              isJumping := true, animationFrame := 2 }
    state := .jumping
    previousState := .idle
    stateChangeTime := 0
    landingTime := 0
    anim := { currentFrame := 2, frameTime := 0, totalFrames := 8,
              frameRate := 12, loop := true, finished := false }
    grounded := false
    physVelocityY := (-67 / 5)
    lastGroundedTime := 0 } := by
  have h : jumpTrace 2 = (ctrlUpdate (jumpTrace 1) noInput 1 0).1 := rfl
  rw [h, jumpTrace_1]
  norm_num +decide [ctrlUpdate, stateUpdate, jumpingUpdate, handleHorizontalMovement, applyGravity, updatePosition, setState, enterState, canTransitionTo, updateCtrlAnim, noInput]

lemma jumpTrace_3 : jumpTrace 3 =
  { char := { x := 100, y := (1299 / 5), width := 40, velocityY := (-63 / 5),
              isJumping := true, animationFrame := 3 }
    state := .jumping
    previousState := .idle
    stateChangeTime := 0
    landingTime := 0
    anim := { currentFrame := 3, frameTime := 0, totalFrames := 8,
              frameRate := 12, loop := true, finished := false }
    grounded := false
    physVelocityY := (-63 / 5)
    lastGroundedTime := 0 } := by
  have h : jumpTrace 3 = (ctrlUpdate (jumpTrace 2) noInput 1 0).1 := rfl
  rw [h, jumpTrace_2]
  norm_num +decide [ctrlUpdate, stateUpdate, jumpingUpdate, handleHorizontalMovement, applyGravity, updatePosition, setState, enterState, canTransitionTo, updateCtrlAnim, noInput]

lemma jumpTrace_4 : jumpTrace 4 =
  { char := { x := 100, y := 248, width := 40, velocityY := (-59 / 5),
              isJumping := true, animationFrame := 4 }
    state := .jumping
    previousState := .idle
    stateChangeTime := 0
    landingTime := 0
    anim := { currentFrame := 4, frameTime := 0, totalFrames := 8,
              frameRate := 12, loop := true, finished := false }
    grounded := false
    physVelocityY := (-59 / 5)
    lastGroundedTime := 0 } := by
  have h : jumpTrace 4 = (ctrlUpdate (jumpTrace 3) noInput 1 0).1 := rfl
  rw [h, jumpTrace_3]
  norm_num +decide [ctrlUpdate, stateUpdate, jumpingUpdate, handleHorizontalMovement, applyGravity, updatePosition, setState, enterState, canTransitionTo, updateCtrlAnim, noInput]

lemma jumpTrace_5 : jumpTrace 5 =
  { char := { x := 100, y := 237, width := 40, velocityY := -11,
              isJumping := true, animationFrame := 5 }
    state := .jumping
    previousState := .idle
    stateChangeTime := 0
    landingTime := 0
    anim := { currentFrame := 5, frameTime := 0, totalFrames := 8,
              frameRate := 12, loop := true, finished := false }
    grounded := false
    physVelocityY := -11
    lastGroundedTime := 0 } := by
  have h : jumpTrace 5 = (ctrlUpdate (jumpTrace 4) noInput 1 0).1 := rfl
  rw [h, jumpTrace_4]
  norm_num +decide [ctrlUpdate, stateUpdate, jumpingUpdate, handleHorizontalMovement, applyGravity, updatePosition, setState, enterState, canTransitionTo, updateCtrlAnim, noInput]

lemma jumpTrace_6 : jumpTrace 6 =
  { char := { x := 100, y := (1134 / 5), width := 40, velocityY := (-51 / 5),
              isJumping := true, animationFrame := 6 }
    state := .jumping
    previousState := .idle
    stateChangeTime := 0
    landingTime := 0
    anim := { currentFrame := 6, frameTime := 0, totalFrames := 8,
              frameRate := 12, loop := true, finished := false }
    grounded := false
    physVelocityY := (-51 / 5)
    lastGroundedTime := 0 } := by
  have h : jumpTrace 6 = (ctrlUpdate (jumpTrace 5) noInput 1 0).1 := rfl
  rw [h, jumpTrace_5]
  norm_num +decide [ctrlUpdate, stateUpdate, jumpingUpdate, handleHorizontalMovement, applyGravity, updatePosition, setState, enterState, canTransitionTo, updateCtrlAnim, noInput]

lemma jumpTrace_7 : jumpTrace 7 =
  { char := { x := 100, y := (1087 / 5), width := 40, velocityY := (-47 / 5),
              isJumping := true, animationFrame := 7 }
    state := .jumping
    previousState := .idle
    stateChangeTime := 0
    landingTime := 0
    anim := { currentFrame := 7, frameTime := 0, totalFrames := 8,
              frameRate := 12, loop := true, finished := false }
    grounded := false
    physVelocityY := (-47 / 5)
    lastGroundedTime := 0 } := by
  have h : jumpTrace 7 = (ctrlUpdate (jumpTrace 6) noInput 1 0).1 := rfl
  rw [h, jumpTrace_6]
  norm_num +decide [ctrlUpdate, stateUpdate, jumpingUpdate, handleHorizontalMovement, applyGravity, updatePosition, setState, enterState, canTransitionTo, updateCtrlAnim, noInput]

lemma jumpTrace_8 : jumpTrace 8 =
  { char := { x := 100, y := (1044 / 5), width := 40, velocityY := (-43 / 5),
              isJumping := true, animationFrame := 0 }
    state := .jumping
    previousState := .idle
    stateChangeTime := 0
    landingTime := 0
    anim := { currentFrame := 0, frameTime := 0, totalFrames := 8,
              frameRate := 12, loop := true, finished := false }
    grounded := false
    physVelocityY := (-43 / 5)
    lastGroundedTime := 0 } := by
  have h : jumpTrace 8 = (ctrlUpdate (jumpTrace 7) noInput 1 0).1 := rfl
  rw [h, jumpTrace_7]
  norm_num +decide [ctrlUpdate, stateUpdate, jumpingUpdate, handleHorizontalMovement, applyGravity, updatePosition, setState, enterState, canTransitionTo, updateCtrlAnim, noInput]

lemma jumpTrace_9 : jumpTrace 9 =
  { char := { x := 100, y := 201, width := 40, velocityY := (-39 / 5),
              isJumping := true, animationFrame := 1 }
    state := .jumping
    previousState := .idle
    stateChangeTime := 0
    landingTime := 0
    anim := { currentFrame := 1, frameTime := 0, totalFrames := 8,
              frameRate := 12, loop := true, finished := false }
    grounded := false
    physVelocityY := (-39 / 5)
    lastGroundedTime := 0 } := by
  have h : jumpTrace 9 = (ctrlUpdate (jumpTrace 8) noInput 1 0).1 := rfl
  rw [h, jumpTrace_8]
  norm_num +decide [ctrlUpdate, stateUpdate, jumpingUpdate, handleHorizontalMovement, applyGravity, updatePosition, setState, enterState, canTransitionTo, updateCtrlAnim, noInput]

lemma jumpTrace_10 : jumpTrace 10 =
  { char := { x := 100, y := 194, width := 40, velocityY := -7,
              isJumping := true, animationFrame := 2 }
    state := .jumping
    previousState := .idle
    stateChangeTime := 0
    landingTime := 0
    anim := { currentFrame := 2, frameTime := 0, totalFrames := 8,
              frameRate := 12, loop := true, finished := false }
    grounded := false
    physVelocityY := -7
    lastGroundedTime := 0 } := by
  have h : jumpTrace 10 = (ctrlUpdate (jumpTrace 9) noInput 1 0).1 := rfl
  rw [h, jumpTrace_9]
  norm_num +decide [ctrlUpdate, stateUpdate, jumpingUpdate, handleHorizontalMovement, applyGravity, updatePosition, setState, enterState, canTransitionTo, updateCtrlAnim, noInput]

lemma jumpTrace_11 : jumpTrace 11 =
  { char := { x := 100, y := (939 / 5), width := 40, velocityY := (-31 / 5),
              isJumping := true, animationFrame := 3 }
    state := .jumping
    previousState := .idle
    stateChangeTime := 0
    landingTime := 0
    anim := { currentFrame := 3, frameTime := 0, totalFrames := 8,
              frameRate := 12, loop := true, finished := false }
    grounded := false
    physVelocityY := (-31 / 5)
    lastGroundedTime := 0 } := by
  have h : jumpTrace 11 = (ctrlUpdate (jumpTrace 10) noInput 1 0).1 := rfl
  rw [h, jumpTrace_10]
  norm_num +decide [ctrlUpdate, stateUpdate, jumpingUpdate, handleHorizontalMovement, applyGravity, updatePosition, setState, enterState, canTransitionTo, updateCtrlAnim, noInput]

lemma jumpTrace_12 : jumpTrace 12 =
  { char := { x := 100, y := (912 / 5), width := 40, velocityY := (-27 / 5),
              isJumping := true, animationFrame := 4 }
    state := .jumping
    previousState := .idle
    stateChangeTime := 0
    landingTime := 0
    anim := { currentFrame := 4, frameTime := 0, totalFrames := 8,
              frameRate := 12, loop := true, finished := false }
    grounded := false
    physVelocityY := (-27 / 5)
    lastGroundedTime := 0 } := by
  have h : jumpTrace 12 = (ctrlUpdate (jumpTrace 11) noInput 1 0).1 := rfl
  rw [h, jumpTrace_11]
  norm_num +decide [ctrlUpdate, stateUpdate, jumpingUpdate, handleHorizontalMovement, applyGravity, updatePosition, setState, enterState, canTransitionTo, updateCtrlAnim, noInput]

lemma jumpTrace_13 : jumpTrace 13 =
  { char := { x := 100, y := (889 / 5), width := 40, velocityY := (-23 / 5),
              isJumping := true, animationFrame := 5 }
    state := .jumping
    previousState := .idle
    stateChangeTime := 0
    landingTime := 0
    anim := { currentFrame := 5, frameTime := 0, totalFrames := 8,
              frameRate := 12, loop := true, finished := false }
    grounded := false
    physVelocityY := (-23 / 5)
    lastGroundedTime := 0 } := by
  have h : jumpTrace 13 = (ctrlUpdate (jumpTrace 12) noInput 1 0).1 := rfl
  rw [h, jumpTrace_12]
  norm_num +decide [ctrlUpdate, stateUpdate, jumpingUpdate, handleHorizontalMovement, applyGravity, updatePosition, setState, enterState, canTransitionTo, updateCtrlAnim, noInput]

lemma jumpTrace_14 : jumpTrace 14 =
  { char := { x := 100, y := 174, width := 40, velocityY := (-19 / 5),
              isJumping := true, animationFrame := 6 }
    state := .jumping
    previousState := .idle
    stateChangeTime := 0
    landingTime := 0
    anim := { currentFrame := 6, frameTime := 0, totalFrames := 8,
              frameRate := 12, loop := true, finished := false }
    grounded := false
    physVelocityY := (-19 / 5)
    lastGroundedTime := 0 } := by
  have h : jumpTrace 14 = (ctrlUpdate (jumpTrace 13) noInput 1 0).1 := rfl
  rw [h, jumpTrace_13]
  norm_num +decide [ctrlUpdate, stateUpdate, jumpingUpdate, handleHorizontalMovement, applyGravity, updatePosition, setState, enterState, canTransitionTo, updateCtrlAnim, noInput]

lemma jumpTrace_15 : jumpTrace 15 =
  { char := { x := 100, y := 171, width := 40, velocityY := -3,
              isJumping := true, animationFrame := 7 }
    state := .jumping
    previousState := .idle
    stateChangeTime := 0
    landingTime := 0
    anim := { currentFrame := 7, frameTime := 0, totalFrames := 8,
              frameRate := 12, loop := true, finished := false }
    grounded := false
    physVelocityY := -3
    lastGroundedTime := 0 } := by
  have h : jumpTrace 15 = (ctrlUpdate (jumpTrace 14) noInput 1 0).1 := rfl
  rw [h, jumpTrace_14]
  norm_num +decide [ctrlUpdate, stateUpdate, jumpingUpdate, handleHorizontalMovement, applyGravity, updatePosition, setState, enterState, canTransitionTo, updateCtrlAnim, noInput]

lemma jumpTrace_16 : jumpTrace 16 =
  { char := { x := 100, y := (844 / 5), width := 40, velocityY := (-11 / 5),
              isJumping := true, animationFrame := 0 }
    state := .jumping
    previousState := .idle
    stateChangeTime := 0
    landingTime := 0
    anim := { currentFrame := 0, frameTime := 0, totalFrames := 8,
              frameRate := 12, loop := true, finished := false }
    grounded := false
    physVelocityY := (-11 / 5)
    lastGroundedTime := 0 } := by
  have h : jumpTrace 16 = (ctrlUpdate (jumpTrace 15) noInput 1 0).1 := rfl
  rw [h, jumpTrace_15]
  norm_num +decide [ctrlUpdate, stateUpdate, jumpingUpdate, handleHorizontalMovement, applyGravity, updatePosition, setState, enterState, canTransitionTo, updateCtrlAnim, noInput]

lemma jumpTrace_17 : jumpTrace 17 =
  { char := { x := 100, y := (837 / 5), width := 40, velocityY := (-7 / 5),
              isJumping := true, animationFrame := 1 }
    state := .jumping
    previousState := .idle
    stateChangeTime := 0
    landingTime := 0
    anim := { currentFrame := 1, frameTime := 0, totalFrames := 8,
              frameRate := 12, loop := true, finished := false }
    grounded := false
    physVelocityY := (-7 / 5)
    lastGroundedTime := 0 } := by
  have h : jumpTrace 17 = (ctrlUpdate (jumpTrace 16) noInput 1 0).1 := rfl
  rw [h, jumpTrace_16]
  norm_num +decide [ctrlUpdate, stateUpdate, jumpingUpdate, handleHorizontalMovement, applyGravity, updatePosition, setState, enterState, canTransitionTo, updateCtrlAnim, noInput]

lemma jumpTrace_18 : jumpTrace 18 =
  { char := { x := 100, y := (834 / 5), width := 40, velocityY := (-3 / 5),
              isJumping := true, animationFrame := 2 }
    state := .jumping
    previousState := .idle
    stateChangeTime := 0
    landingTime := 0
    anim := { currentFrame := 2, frameTime := 0, totalFrames := 8,
              frameRate := 12, loop := true, finished := false }
    grounded := false
    physVelocityY := (-3 / 5)
    lastGroundedTime := 0 } := by
  have h : jumpTrace 18 = (ctrlUpdate (jumpTrace 17) noInput 1 0).1 := rfl
  rw [h, jumpTrace_17]
  norm_num +decide [ctrlUpdate, stateUpdate, jumpingUpdate, handleHorizontalMovement, applyGravity, updatePosition, setState, enterState, canTransitionTo, updateCtrlAnim, noInput]

lemma jumpTrace_19 : jumpTrace 19 =
  { char := { x := 100, y := 167, width := 40, velocityY := (1 / 5),
              isJumping := true, animationFrame := 3 }
    state := .falling
    previousState := .jumping
    stateChangeTime := 0
    landingTime := 0
    anim := { currentFrame := 3, frameTime := 0, totalFrames := 8,
              frameRate := 12, loop := true, finished := false }
    grounded := false
    physVelocityY := (1 / 5)
    lastGroundedTime := 0 } := by
  have h : jumpTrace 19 = (ctrlUpdate (jumpTrace 18) noInput 1 0).1 := rfl
  rw [h, jumpTrace_18]
  norm_num +decide [ctrlUpdate, stateUpdate, jumpingUpdate, handleHorizontalMovement, applyGravity, updatePosition, setState, enterState, canTransitionTo, updateCtrlAnim, noInput]

/-! ## Claim theorems -/

/-- C1 counterexample: with a 100-by-100 canvas and cell size 100, the
object at (150, 10) lies wholly beyond the grid, is registered into no
cell, and the spatial query misses it although the brute-force all-pairs
AABB scan reports it (the character box overlaps the object).  So the
query result does not equal the brute-force result for every object
placement. -/
theorem spatial_query_misses_outside_object :
    objA ∈ bruteForceScan chA [objA] ∧
      objA ∉ checkCharacterCollisions sysA (buildGrid sysA [objA]) chA := by
  constructor
  · have hb : bruteForceScan chA [objA] = [objA] := by
      norm_num [bruteForceScan, chA, objA, checkCollision, List.filter]
    rw [hb]
    exact List.mem_singleton.mpr rfl
  · have hq : checkCharacterCollisions sysA (buildGrid sysA [objA]) chA = [] := by
      norm_num [checkCharacterCollisions, coveredCells, cellStartX, cellEndX,
        cellStartY, cellEndY, gridWidth, gridHeight, getBounds, intRange, buildGrid,
        addObjectToGrid, clearGrid, collectCollisions, sysA, objA, chA]
    rw [hq]
    exact List.not_mem_nil _

/-- C1 (amended): for every positive cell size and every character box and
set of registered objects whose rectangles lie within the canvas extent
(with nonnegative sizes), the set of objects returned by the spatial-index
query (clear, register each object, then checkCharacterCollisions) equals
the set returned by the brute-force all-pairs AABB scan.  Objects or
characters outside the canvas extent are excluded: the counterexample
shows the equality fails there. -/
theorem spatial_query_eq_bruteforce (s : CollisionSystem) (objs : List Obj)
    (ch : Rect) (o : Obj) (hcs : 0 < s.cellSize) (hch : rectInCanvas s ch)
    (hobjs : ∀ o2 ∈ objs, rectInCanvas s o2.rect) :
    o ∈ checkCharacterCollisions s (buildGrid s objs) ch ↔
      o ∈ bruteForceScan ch objs := by
  unfold checkCharacterCollisions bruteForceScan
  rw [List.mem_filter, mem_collectCollisions]
  simp only [List.not_mem_nil, false_or, List.mem_flatMap, not_false_iff, true_and]
  constructor
  · rintro ⟨⟨c, hc, hg⟩, hfast⟩
    obtain ⟨ho, -⟩ := mem_buildGrid.mp hg
    rw [fastAABB_eq_checkCollision] at hfast
    exact ⟨ho, hfast⟩
  · rintro ⟨ho, hcol⟩
    have hcolP := hcol
    unfold checkCollision at hcolP
    rw [decide_eq_true_eq] at hcolP
    obtain ⟨hx1, hx2, hy1, hy2⟩ := hcolP
    obtain ⟨hcx, hcwx, hcy, hcwy, hcw, hchh⟩ := hch
    obtain ⟨hox, howx, hoy, howy, how, hoh⟩ := hobjs o ho
    obtain ⟨i, hiA, hiB⟩ := cell_overlap (W := s.canvasWidth) hcs hcx hcwx hox howx
      (by linarith) (by linarith) hx1 (by linarith)
    obtain ⟨j, hjA, hjB⟩ := cell_overlap (W := s.canvasHeight) hcs hcy hcwy hoy howy
      (by linarith) (by linarith) hy1 (by linarith)
    refine ⟨⟨(i, j), ?_, ?_⟩, ?_⟩
    · rw [mem_coveredCells]
      unfold cellStartX cellEndX cellStartY cellEndY gridWidth gridHeight getBounds
      exact ⟨hiA, hjA⟩
    · rw [mem_buildGrid]
      refine ⟨ho, ?_⟩
      rw [mem_coveredCells]
      unfold cellStartX cellEndX cellStartY cellEndY gridWidth gridHeight getBounds
      exact ⟨hiB, hjB⟩
    · rw [fastAABB_eq_checkCollision]
      exact hcol

/-- Witness for the amended C1 theorem on a concrete system and object
list inside the canvas. -/
theorem spatial_query_eq_bruteforce_witness :
    Obj.mk 1 ⟨60, 80, 30, 30⟩ ∈
        checkCharacterCollisions sysB (buildGrid sysB objsB) chB ↔
      Obj.mk 1 ⟨60, 80, 30, 30⟩ ∈ bruteForceScan chB objsB :=
  spatial_query_eq_bruteforce sysB objsB chB (Obj.mk 1 ⟨60, 80, 30, 30⟩)
    (by norm_num [sysB])
    (by norm_num [rectInCanvas, sysB, chB])
    (by
      intro o2 ho2
      simp only [objsB, List.mem_cons, List.not_mem_nil, or_false] at ho2
      rcases ho2 with rfl | rfl <;> norm_num [rectInCanvas, sysB])

/-- C2 counterexample: an object wholly beyond the grid extent spans no
cell after clamping, so `addObjectToGrid` inserts it into no cell at all:
the registration is effectively dropped, not clamped into the grid. -/
theorem register_outside_extent_dropped :
    coveredCells sysA (getBounds objA.rect) = [] ∧
      addObjectToGrid sysA clearGrid objA = clearGrid := by
  have hcells : coveredCells sysA (getBounds objA.rect) = [] := by
    norm_num [coveredCells, cellStartX, cellEndX, cellStartY, cellEndY, gridWidth,
      gridHeight, getBounds, intRange, sysA, objA]
  refine ⟨hcells, ?_⟩
  funext c
  unfold addObjectToGrid
  rw [hcells]
  simp [clearGrid]

/-- C2 (amended): an object whose bounds overlap the grid extent
(`maxX ≥ 0`, `minX < gridWidth·cellSize`, and likewise in y) has its cell
range clamped to valid indices and is registered into at least one cell;
an object wholly outside the extent is registered into no cell (see the
counterexample). -/
theorem register_clamps_into_grid (s : CollisionSystem) (r : Rect) (n : ℕ) (g : Grid)
    (hcs : 0 < s.cellSize) (hW : 0 < s.canvasWidth) (hH : 0 < s.canvasHeight)
    (hw : 0 ≤ r.width) (hh : 0 ≤ r.height)
    (hxr : 0 ≤ r.x + r.width) (hxl : r.x < (gridWidth s : ℚ) * s.cellSize)
    (hyr : 0 ≤ r.y + r.height) (hyl : r.y < (gridHeight s : ℚ) * s.cellSize) :
    coveredCells s (getBounds r) ≠ [] ∧
      (∀ c ∈ coveredCells s (getBounds r),
        (0 ≤ c.1 ∧ c.1 < gridWidth s) ∧ (0 ≤ c.2 ∧ c.2 < gridHeight s)) ∧
      ∃ c, Obj.mk n r ∈ addObjectToGrid s g (Obj.mk n r) c := by
  have hgw : 1 ≤ gridWidth s := by
    have h1 : (0:ℚ) < s.canvasWidth / s.cellSize := div_pos hW hcs
    have h2 := Int.ceil_pos.mpr h1
    unfold gridWidth
    omega
  have hgh : 1 ≤ gridHeight s := by
    have h1 : (0:ℚ) < s.canvasHeight / s.cellSize := div_pos hH hcs
    have h2 := Int.ceil_pos.mpr h1
    unfold gridHeight
    omega
  have hsx : cellStartX s (getBounds r) ≤ cellEndX s (getBounds r) := by
    unfold cellStartX cellEndX getBounds
    dsimp only
    have h1 : (0:ℤ) ≤ ⌊(r.x + r.width) / s.cellSize⌋ :=
      Int.floor_nonneg.mpr (div_nonneg hxr hcs.le)
    have h2 : ⌊r.x / s.cellSize⌋ ≤ ⌊(r.x + r.width) / s.cellSize⌋ :=
      Int.floor_le_floor ((div_le_div_iff_of_pos_right hcs).mpr (by linarith))
    have h3 : ⌊r.x / s.cellSize⌋ < gridWidth s := by
      apply Int.floor_lt.mpr
      rw [div_lt_iff₀ hcs]
      exact hxl
    exact max_le (le_min (by omega) h1) (le_min (by omega) h2)
  have hsy : cellStartY s (getBounds r) ≤ cellEndY s (getBounds r) := by
    unfold cellStartY cellEndY getBounds
    dsimp only
    have h1 : (0:ℤ) ≤ ⌊(r.y + r.height) / s.cellSize⌋ :=
      Int.floor_nonneg.mpr (div_nonneg hyr hcs.le)
    have h2 : ⌊r.y / s.cellSize⌋ ≤ ⌊(r.y + r.height) / s.cellSize⌋ :=
      Int.floor_le_floor ((div_le_div_iff_of_pos_right hcs).mpr (by linarith))
    have h3 : ⌊r.y / s.cellSize⌋ < gridHeight s := by
      apply Int.floor_lt.mpr
      rw [div_lt_iff₀ hcs]
      exact hyl
    exact max_le (le_min (by omega) h1) (le_min (by omega) h2)
  have hmem : (cellStartX s (getBounds r), cellStartY s (getBounds r)) ∈
      coveredCells s (getBounds r) := by
    rw [mem_coveredCells]
    exact ⟨⟨le_refl _, hsx⟩, ⟨le_refl _, hsy⟩⟩
  refine ⟨List.ne_nil_of_mem hmem, ?_, ?_⟩
  · intro c hc
    rw [mem_coveredCells] at hc
    obtain ⟨⟨ha1, ha2⟩, hb1, hb2⟩ := hc
    simp only [cellStartX, cellEndX, cellStartY, cellEndY] at ha1 ha2 hb1 hb2
    constructor
    · constructor
      · exact le_trans (le_max_left 0 _) ha1
      · have := le_trans ha2 (min_le_left _ _)
        omega
    · constructor
      · exact le_trans (le_max_left 0 _) hb1
      · have := le_trans hb2 (min_le_left _ _)
        omega
  · refine ⟨(cellStartX s (getBounds r), cellStartY s (getBounds r)), ?_⟩
    unfold addObjectToGrid
    rw [if_pos hmem]
    simp

/-- Witness for the amended C2 theorem: an object partly outside the
top-left corner of the canvas is still registered into a cell. -/
theorem register_clamps_into_grid_witness :
    coveredCells sysB (getBounds (⟨-20, -30, 50, 40⟩ : Rect)) ≠ [] ∧
      ∃ c, Obj.mk 5 ⟨-20, -30, 50, 40⟩ ∈
        addObjectToGrid sysB clearGrid (Obj.mk 5 ⟨-20, -30, 50, 40⟩) c := by
  have h := register_clamps_into_grid sysB ⟨-20, -30, 50, 40⟩ 5 clearGrid
    (by norm_num [sysB]) (by norm_num [sysB]) (by norm_num [sysB])
    (by norm_num) (by norm_num) (by norm_num)
    (by norm_num [sysB, gridWidth]) (by norm_num)
    (by norm_num [sysB, gridHeight])
  exact ⟨h.1, h.2.2⟩

/-- C3: starting at or above the ground reference line (y = 300, with y
growing downward), the character's y position never exceeds the line
under any sequence of controller update steps; and at the exact step
where an airborne character's position reaches the line, the vertical
velocity is zeroed, the airborne flag is cleared and `physics.grounded`
becomes true. -/
theorem airborne_ground_line (ctrl : Controller) (steps : List (CInput × ℚ × ℚ))
    (input : CInput) (dt now : ℚ) :
    (ctrl.char.y ≤ 300 → (runSteps ctrl steps).char.y ≤ 300) ∧
      (ctrl.char.isJumping = true → ctrl.char.y < 300 →
        (ctrlUpdate ctrl input dt now).1.char.y = 300 →
        (ctrlUpdate ctrl input dt now).1.char.velocityY = 0 ∧
          (ctrlUpdate ctrl input dt now).1.char.isJumping = false ∧
          (ctrlUpdate ctrl input dt now).1.grounded = true) :=
  ⟨fun hy => runSteps_y steps ctrl hy,
    fun _ hy hres => ctrlUpdate_touchdown hy hres⟩

/-- Witness for C3: a concrete airborne controller that lands in one
step. -/
theorem airborne_ground_line_witness :
    (runSteps airCtrl [(noInput, 1, 0)]).char.y ≤ 300 ∧
      ((ctrlUpdate airCtrl noInput 1 0).1.char.velocityY = 0 ∧
        (ctrlUpdate airCtrl noInput 1 0).1.char.isJumping = false ∧
        (ctrlUpdate airCtrl noInput 1 0).1.grounded = true) := by
  have h := airborne_ground_line airCtrl [(noInput, 1, 0)] noInput 1 0
  refine ⟨h.1 (by norm_num [airCtrl]), h.2 rfl (by norm_num [airCtrl]) ?_⟩
  norm_num +decide [airCtrl, ctrlUpdate, stateUpdate, jumpingUpdate, handleHorizontalMovement, applyGravity, updatePosition, setState, enterState, canTransitionTo, updateCtrlAnim, noInput]

/-- C4: a non-forced `setState` call whose target is not allowed by the
current state's `canTransitionTo` table returns false and leaves the
controller (state, previousState, stateChangeTime, character) unchanged,
runs no enter/exit hook and notifies no listener. -/
theorem invalid_transition_rejected (ctrl : Controller) (target : CState) (now : ℚ)
    (h : canTransitionTo ctrl.state target = false) :
    setState ctrl target false now = (ctrl, false, []) := by
  simp [setState, h]

/-- Witness for C4: from Idle, a non-forced request for Landing (absent
from Idle's table) is rejected. -/
theorem invalid_transition_rejected_witness :
    setState baseCtrl .landing false 0 = (baseCtrl, false, []) :=
  invalid_transition_rejected baseCtrl .landing 0 rfl

/-- C5 counterexample: one update step after the transition into Jumping
(dt = 1) gives verticalVelocity exactly -14.2 as the claim states, but
y = 285.8, not 285: gravity is applied before the position integration,
so y becomes 300 - 14.2 = 285.8. -/
theorem jump_first_step_not_285 :
    (jumpTrace 1).char.velocityY = -14.2 ∧ (jumpTrace 1).char.y = 285.8 ∧
      (jumpTrace 1).char.y ≠ 285 := by
  rw [jumpTrace_1]
  norm_num

/-- C5 (amended): with ground line y = 300, start y = 300, gravity 0.8 per
step and jump impulse -15, step 1 after the transition into Jumping gives
verticalVelocity exactly -14.2 and y exactly 285.8; the state stays
Jumping with nonpositive velocity through step 18, and step 19 — the first
step at which the velocity turns positive — returns the Falling state. -/
theorem jump_scenario_amended (k : ℕ) (hk1 : 1 ≤ k) (hk18 : k ≤ 18) :
    (jumpTrace 1).char.velocityY = -14.2 ∧ (jumpTrace 1).char.y = 285.8 ∧
      ((jumpTrace k).state = CState.jumping ∧ (jumpTrace k).char.velocityY < 0) ∧
      ((jumpTrace 19).char.velocityY > 0 ∧
        (jumpTrace 19).state = CState.falling) := by
  refine ⟨?_, ?_, ?_, ?_⟩
  · rw [jumpTrace_1]
    norm_num
  · rw [jumpTrace_1]
    norm_num
  · interval_cases k
    · rw [jumpTrace_1]
      exact ⟨rfl, by norm_num⟩
    · rw [jumpTrace_2]
      exact ⟨rfl, by norm_num⟩
    · rw [jumpTrace_3]
      exact ⟨rfl, by norm_num⟩
    · rw [jumpTrace_4]
      exact ⟨rfl, by norm_num⟩
    · rw [jumpTrace_5]
      exact ⟨rfl, by norm_num⟩
    · rw [jumpTrace_6]
      exact ⟨rfl, by norm_num⟩
    · rw [jumpTrace_7]
      exact ⟨rfl, by norm_num⟩
    · rw [jumpTrace_8]
      exact ⟨rfl, by norm_num⟩
    · rw [jumpTrace_9]
      exact ⟨rfl, by norm_num⟩
    · rw [jumpTrace_10]
      exact ⟨rfl, by norm_num⟩
    · rw [jumpTrace_11]
      exact ⟨rfl, by norm_num⟩
    · rw [jumpTrace_12]
      exact ⟨rfl, by norm_num⟩
    · rw [jumpTrace_13]
      exact ⟨rfl, by norm_num⟩
    · rw [jumpTrace_14]
      exact ⟨rfl, by norm_num⟩
    · rw [jumpTrace_15]
      exact ⟨rfl, by norm_num⟩
    · rw [jumpTrace_16]
      exact ⟨rfl, by norm_num⟩
    · rw [jumpTrace_17]
      exact ⟨rfl, by norm_num⟩
    · rw [jumpTrace_18]
      exact ⟨rfl, by norm_num⟩
  · rw [jumpTrace_19]
    exact ⟨by norm_num, rfl⟩

/-- Witness for the amended C5 theorem at step 2. -/
theorem jump_scenario_amended_witness :
    (jumpTrace 2).state = CState.jumping ∧ (jumpTrace 2).char.velocityY < 0 :=
  (jump_scenario_amended 2 (by norm_num) (by norm_num)).2.2.1

/-- C6: every provided easing function maps progress 0 to 0 and progress 1
to 1 (the transcendental pieces of the elastic branch are abstracted over,
its endpoints being special-cased in the source); hence a tween's value is
exactly `fromVal` at progress 0 and exactly `toVal` at progress 1;
`updateTweenAnimations` removes every tween whose progress reached 1
within the same call, and each write it performs targets a tween present
in the active set, so a removed tween never mutates its target on later
updates. -/
theorem tween_endpoints_and_completion (pow2 sin23 : ℚ → ℚ) (k : InterpolationType)
    (tw : TweenAnimation) (tweens : List TweenAnimation) (dt : ℚ) :
    (getEasingFunction pow2 sin23 k 0 = 0 ∧ getEasingFunction pow2 sin23 k 1 = 1) ∧
      (tweenProgress tw = 0 → tweenValue pow2 sin23 tw = tw.fromVal) ∧
      (tweenProgress tw = 1 → tweenValue pow2 sin23 tw = tw.toVal) ∧
      (∀ tw2 ∈ (updateTweenAnimations pow2 sin23 tweens dt).1,
        tweenProgress tw2 < 1) ∧
      (∀ w ∈ (updateTweenAnimations pow2 sin23 tweens dt).2,
        ∃ t ∈ tweens, w.1 = t.targetId) := by
  refine ⟨easing_endpoints pow2 sin23 k, ?_, ?_, ?_, ?_⟩
  · intro hp
    unfold tweenValue
    rw [hp, (easing_endpoints pow2 sin23 tw.easing).1]
    ring
  · intro hp
    unfold tweenValue
    rw [hp, (easing_endpoints pow2 sin23 tw.easing).2]
    ring
  · intro tw2 h
    unfold updateTweenAnimations at h
    rw [List.mem_filter] at h
    have h2 := h.2
    simp only [decide_eq_true_eq] at h2
    exact lt_of_not_ge h2
  · intro w hw
    unfold updateTweenAnimations at hw
    simp only [List.mem_map] at hw
    obtain ⟨t, ht, rfl⟩ := hw
    obtain ⟨a, ha, rfl⟩ := ht
    exact ⟨a, ha, rfl⟩

/-- Witness for C6: a linear tween at progress 0 reports `fromVal` and at
progress 1 reports `toVal`. -/
theorem tween_endpoints_and_completion_witness :
    (tweenProgress ⟨0, 7, 3, 5, 2, 0, .linear⟩ = 0 ∧
      tweenValue id id ⟨0, 7, 3, 5, 2, 0, .linear⟩ = 3) ∧
      (tweenProgress ⟨1, 7, 3, 5, 2, 2, .linear⟩ = 1 ∧
        tweenValue id id ⟨1, 7, 3, 5, 2, 2, .linear⟩ = 5) := by
  have h0 : tweenProgress (⟨0, 7, 3, 5, 2, 0, .linear⟩ : TweenAnimation) = 0 := by
    norm_num [tweenProgress]
  have h1 : tweenProgress (⟨1, 7, 3, 5, 2, 2, .linear⟩ : TweenAnimation) = 1 := by
    norm_num [tweenProgress]
  refine ⟨⟨h0, ?_⟩, ⟨h1, ?_⟩⟩
  · exact (tween_endpoints_and_completion id id .linear _ [] 0).2.1 h0
  · exact (tween_endpoints_and_completion id id .linear _ [] 0).2.2.1 h1

/-- C7: starting from quality 1.0 the quality factor stays within
[0.1, 1.0] after every sequence of frame-end adjustments; a single
adjustment changes it by at most 0.1 downward and at most 0.05 upward,
decreases only when average FPS is below 80 percent of target, and
increases only when average FPS exceeds 95 percent of target while the
quality is below 1.0. -/
theorem quality_factor_bounds (targetFps : ℚ) (samples : List ℚ) (q avg : ℚ)
    (hq0 : 0.1 ≤ q) (hq1 : q ≤ 1) :
    (0.1 ≤ runQuality targetFps samples ∧ runQuality targetFps samples ≤ 1) ∧
      (q - 0.1 ≤ adjustQuality q avg targetFps ∧
        adjustQuality q avg targetFps ≤ q + 0.05) ∧
      (adjustQuality q avg targetFps < q → avg < targetFps * 0.8) ∧
      (q < adjustQuality q avg targetFps →
        avg > targetFps * 0.95 ∧ q < 1) := by
  refine ⟨foldQuality_mem targetFps samples 1 (by norm_num) (by norm_num), ?_, ?_, ?_⟩
  · unfold adjustQuality
    split_ifs with hlow hhigh
    · exact ⟨le_max_right _ _, max_le (by linarith) (by linarith)⟩
    · exact ⟨le_min (by linarith) (by linarith), min_le_right _ _⟩
    · constructor <;> linarith
  · intro hlt
    by_contra hnot
    push_neg at hnot
    unfold adjustQuality at hlt
    rw [if_neg (by linarith)] at hlt
    split_ifs at hlt with hhigh
    · have hle : q ≤ min 1 (q + 0.05) := le_min (le_of_lt hhigh.2) (by linarith)
      linarith
    · exact absurd hlt (lt_irrefl q)
  · intro hgt
    unfold adjustQuality at hgt
    split_ifs at hgt with hlow hhigh
    · have hle : max 0.1 (q - 0.1) ≤ q := max_le hq0 (by linarith)
      linarith
    · exact hhigh
    · exact absurd hgt (lt_irrefl q)

/-- Witness for C7 at target 60 FPS, samples 40 and 59, quality 0.9. -/
theorem quality_factor_bounds_witness :
    (0.1 ≤ runQuality 60 [40, 59] ∧ runQuality 60 [40, 59] ≤ 1) ∧
      ((0.9 : ℚ) - 0.1 ≤ adjustQuality 0.9 59 60 ∧
        adjustQuality 0.9 59 60 ≤ 0.9 + 0.05) ∧
      (adjustQuality 0.9 59 60 < 0.9 → (59 : ℚ) < 60 * 0.8) ∧
      ((0.9 : ℚ) < adjustQuality 0.9 59 60 →
        (59 : ℚ) > 60 * 0.95 ∧ (0.9 : ℚ) < 1) :=
  quality_factor_bounds 60 [40, 59] 0.9 59 (by norm_num) (by norm_num)

/-- C8: for a pool built with initialSize at most maxSize, the free list
never grows beyond maxSize under any sequence of get/release operations;
and a release performed while the free list is already at maxSize leaves
the pool unchanged and does not invoke the reset function (the returned
flag is false). -/
theorem pool_free_list_bounded {T : Type} (createFn : Unit → T) (resetFn : T → T)
    (initialSize maxSize : ℕ) (hinit : initialSize ≤ maxSize)
    (ops : List (PoolOp T)) (p : Pool T) (obj : T)
    (hfull : ¬ p.free.length < p.maxSize) :
    (runPool createFn resetFn (mkPool createFn initialSize maxSize) ops).free.length
        ≤ maxSize ∧
      poolRelease resetFn p obj = (p, false) := by
  constructor
  · have h0 : (mkPool createFn initialSize maxSize).free.length ≤
        (mkPool createFn initialSize maxSize).maxSize := by
      simp [mkPool, hinit]
    have h := runPool_len createFn resetFn ops (mkPool createFn initialSize maxSize) h0
    calc (runPool createFn resetFn (mkPool createFn initialSize maxSize) ops).free.length
        ≤ (runPool createFn resetFn (mkPool createFn initialSize maxSize) ops).maxSize :=
          h.1
      _ = maxSize := h.2
  · unfold poolRelease
    rw [if_neg hfull]

/-- Witness for C8 on a small concrete pool of naturals. -/
theorem pool_free_list_bounded_witness :
    (runPool (fun _ => (0 : ℕ)) id (mkPool (fun _ => (0 : ℕ)) 2 2)
        [PoolOp.get, PoolOp.release 5, PoolOp.release 7]).free.length ≤ 2 ∧
      poolRelease id (Pool.mk [1, 2] 2) 9 = (Pool.mk [1, 2] 2, false) :=
  pool_free_list_bounded (fun _ => (0 : ℕ)) id 2 2 (by decide)
    [PoolOp.get, PoolOp.release 5, PoolOp.release 7] (Pool.mk [1, 2] 2) 9 (by decide)

/-- C9: for an id with no registered animation instance,
`isAnimationFinished` returns true and `getCurrentFrame` returns the
default frame value 0. -/
theorem unregistered_animation_defaults (anims : AnimMap) (id : String)
    (h : anims.lookup id = none) :
    isAnimationFinished anims id = true ∧ getCurrentFrame anims id = 0 := by
  simp [isAnimationFinished, getCurrentFrame, h]

/-- Witness for C9 on the empty animation map (an id never played). -/
theorem unregistered_animation_defaults_witness :
    isAnimationFinished [] "character_run" = true ∧
      getCurrentFrame [] "character_run" = 0 :=
  unregistered_animation_defaults [] "character_run" rfl

/-- C10: if the character's x lies within [0, 800 - width], then one
controller update step keeps it within that play area, for every state,
input and nonnegative dt (horizontal movement is clamped on both sides). -/
theorem horizontal_movement_clamped (ctrl : Controller) (input : CInput) (dt now : ℚ)
    (hx0 : 0 ≤ ctrl.char.x) (hx1 : ctrl.char.x ≤ 800 - ctrl.char.width)
    (hdt : 0 ≤ dt) :
    0 ≤ (ctrlUpdate ctrl input dt now).1.char.x ∧
      (ctrlUpdate ctrl input dt now).1.char.x ≤
        800 - (ctrlUpdate ctrl input dt now).1.char.width := by
  obtain ⟨hs, hsw⟩ :=
    @stateUpdate_x ctrl.state ctrl.landingTime ctrl.char input dt ⟨hx0, hx1⟩ hdt
  unfold ctrlUpdate
  dsimp only
  cases hopt : (stateUpdate ctrl.state ctrl.landingTime ctrl.char input dt).2.2 with
  | none =>
      simp only [hopt]
      exact hs
  | some t =>
      simp only [hopt]
      split_ifs with hne
      · obtain ⟨ha, hb⟩ := @setState_x
          { ctrl with
            char := (stateUpdate ctrl.state ctrl.landingTime ctrl.char input dt).1
            landingTime :=
              (stateUpdate ctrl.state ctrl.landingTime ctrl.char input dt).2.1 }
          t false now
        constructor
        · dsimp only
          rw [ha]
          exact hs.1
        · dsimp only
          rw [ha, hb]
          exact hs.2
      · exact hs

/-- Witness for C10: one step holding right from the base controller. -/
theorem horizontal_movement_clamped_witness :
    0 ≤ (ctrlUpdate baseCtrl ⟨false, false, true⟩ 1 0).1.char.x ∧
      (ctrlUpdate baseCtrl ⟨false, false, true⟩ 1 0).1.char.x ≤
        800 - (ctrlUpdate baseCtrl ⟨false, false, true⟩ 1 0).1.char.width :=
  horizontal_movement_clamped baseCtrl ⟨false, false, true⟩ 1 0
    (by norm_num [baseCtrl]) (by norm_num [baseCtrl]) (by norm_num)

end WindRunner
